import Mathlib

set_option maxRecDepth 4000

namespace CameraService

/-- Driver-level error carried by a GPhoto2Error.  The service only ever uses
the exception through str(ex) (the text is put into JSON bodies), so an error
is embedded as its message string. -/
abbrev GpError := String

/-- Opaque device handle (gp.Camera()); the service never inspects it, it only
stores it in the module-level `camera` variable or clears it. -/
abbrev Cam := Unit

/-- Device-level calls performed by the session layer, recorded so that the
idempotence / no-reopen claims can talk about which hardware calls happen. -/
inductive DevCall where
  | init
  | exit
deriving DecidableEq, Repr

/-- JSON values appearing in the service's response bodies. -/
inductive JVal where
  | str (v : String)
  | arr (vs : List String)
deriving DecidableEq, Repr

/-- HTTP-layer result of a handler: a JSON body with a status code, or a file
response (send_file). -/
inductive Resp where
  | json (fields : List (String × JVal)) (status : Nat)
  | fileResp (path : String) (mimetype : String)
deriving DecidableEq, Repr

/-- Shape jsonify({"error": msg}), status — the error-body shape used at every
failure site in src/app.py. -/
def jsonErr (msg : String) (status : Nat) : Resp :=
  Resp.json [("error", JVal.str msg)] status

/-- Simulation flag, src/app.py line 15: fixed to False, so the simulation
branches of the handlers are dead code. -/
def SIMULATION : Bool := false

/-- src/app.py lines 36-49 (init_camera): under camera_lock, if the handle is
absent attempt to open it; openResult is the outcome the hardware would give
gp.Camera().init() at this moment.  Returns the new handle, the boolean the
function returns, and the device calls performed.  When the handle is already
present the function returns True immediately without any device call; when
the open fails the handle is left None. -/
def init_camera (camera : Option Cam) (openResult : Except GpError Cam) :
    Option Cam × Bool × List DevCall :=
  match camera with
  | some c => (some c, true, [])
  | none =>
    match openResult with
    | Except.ok c => (some c, true, [DevCall.init])
    | Except.error _ => (none, false, [DevCall.init])

/-- src/app.py lines 52-62 (release_camera): under camera_lock, if a handle is
present call camera.exit() (its outcome exitRes is swallowed: a GPhoto2Error
is only logged) and in every case clear the handle in the finally block.
Returns the handle state and the device calls performed; the function has no
error output because close errors never propagate. -/
def release_camera (camera : Option Cam) (exitRes : Except GpError Unit) :
    Option Cam × List DevCall :=
  match camera, exitRes with
  | some _, _ => (none, [DevCall.exit])
  | none, _ => (none, [])

/-- Multipart framing of one preview frame, src/app.py lines 74-77. -/
def frameChunk (data : String) : String :=
  "--frame\r\n" ++ "Content-Type: image/jpeg\r\n\r\n" ++ data ++ "\r\n"

/-- src/app.py lines 65-81 (generate_frames): the liveview loop.  previews is
the finite prefix of outcomes that successive gp_camera_capture_preview calls
would produce (Except.ok data yields one framed chunk, Except.error makes the
loop break).  The loop is modelled single-threadedly: nothing mutates
stream_active or camera during the run, and the source loop itself never
assigns either of them — on a GPhoto2Error it only prints and breaks, it
neither clears stream_active nor releases the camera — so both are carried
through unchanged.  Result: emitted chunks, final stream_active, final
handle.  (The per-iteration lock acquisition and the pacing sleep are
modelled in the concurrency section below.) -/
def generate_frames (stream_active : Bool) (camera : Option Cam) :
    List (Except GpError String) → List String × Bool × Option Cam
  | [] => ([], stream_active, camera)
  | r :: rest =>
    if stream_active then
      match camera with
      | none => ([], stream_active, camera)
      | some _ =>
        match r with
        | Except.ok data =>
          match generate_frames stream_active camera rest with
          | (out, a2, cam2) => (frameChunk data :: out, a2, cam2)
        | Except.error _ => ([], stream_active, camera)
    else ([], stream_active, camera)

/-- src/app.py lines 100-108 (stop_stream): unconditionally clears
stream_active and calls release_camera, whatever the prior state was. -/
def stop_stream (stream_active : Bool) (camera : Option Cam)
    (exitRes : Except GpError Unit) : Resp × Bool × Option Cam :=
  if SIMULATION then
    (Resp.json [("status", JVal.str "Stream stopped")] 200, stream_active,
      camera)
  else
    (Resp.json [("status", JVal.str "Stream stopped")] 200, false,
      (release_camera camera exitRes).1)

/-- src/app.py lines 84-97 (start_stream): init_camera; when the open fails
the handler returns its own 500 with the fixed body "Camera initialization
failed" (NOT the 503 "Camera not available" of the one-shot handlers);
otherwise stream_active is set (idempotently, with a distinguishing body when
the stream already runs). -/
def start_stream (stream_active : Bool) (camera : Option Cam)
    (openResult : Except GpError Cam) : Resp × Bool × Option Cam :=
  if SIMULATION then
    (Resp.json [("status", JVal.str "Stream started")] 200, stream_active,
      camera)
  else
    match init_camera camera openResult with
    | (camera1, false, _) =>
      (jsonErr "Camera initialization failed" 500, stream_active, camera1)
    | (camera1, true, _) =>
      if stream_active then
        (Resp.json [("status", JVal.str "Stream already running")] 200,
          stream_active, camera1)
      else
        (Resp.json [("status", JVal.str "Stream started")] 200, true, camera1)

/-- Folder/name pair returned by gp_camera_capture (a gphoto2 CameraFilePath). -/
structure CamFilePath where
  folder : String
  name : String
deriving DecidableEq, Repr

/-- src/app.py lines 129-163 (capture): init_camera, then under camera_lock
four device calls — gp_camera_capture, gp_camera_file_get, gp_file_save,
gp_camera_file_delete — each parametrised by the outcome the hardware would
give it.  Any GPhoto2Error (and any other exception alike, the two except
blocks are identical) runs release_camera before returning the 500 whose body
is str(ex).  On success the handle stays open and capture.jpg is sent. -/
def capture (camera : Option Cam) (openResult : Except GpError Cam)
    (captureRes : Except GpError CamFilePath)
    (fileGetRes : Except GpError String)
    (saveRes : Except GpError Unit)
    (deleteRes : Except GpError Unit)
    (exitRes : Except GpError Unit) : Resp × Option Cam :=
  match init_camera camera openResult with
  | (camera1, false, _) => (jsonErr "Camera not available" 503, camera1)
  | (camera1, true, _) =>
    match captureRes with
    | Except.error ex => (jsonErr ex 500, (release_camera camera1 exitRes).1)
    | Except.ok _ =>
      match fileGetRes with
      | Except.error ex => (jsonErr ex 500, (release_camera camera1 exitRes).1)
      | Except.ok _ =>
        match saveRes with
        | Except.error ex =>
          (jsonErr ex 500, (release_camera camera1 exitRes).1)
        | Except.ok _ =>
          match deleteRes with
          | Except.error ex =>
            (jsonErr ex 500, (release_camera camera1 exitRes).1)
          | Except.ok _ => (Resp.fileResp "capture.jpg" "image/jpeg", camera1)

/-- One entry of the gphoto2 config tree: a current value plus the
device-reported choice list. -/
structure GpWidget where
  value : String
  choices : List String
deriving DecidableEq, Repr

/-- The slice of the config tree the service touches: the iso, shutterspeed
and aperture widgets. -/
structure GpConfig where
  iso : GpWidget
  shutterspeed : GpWidget
  aperture : GpWidget
deriving DecidableEq, Repr

/-- src/app.py lines 166-198 (get_exposure_options): init_camera, then under
camera_lock camera.get_config() (outcome getConfigRes); on success the three
choice lists are returned.  A GPhoto2Error returns a 500 whose body is
str(ex); the handle is NOT released on this path. -/
def get_exposure_options (camera : Option Cam) (openResult : Except GpError Cam)
    (getConfigRes : Except GpError GpConfig) : Resp × Option Cam :=
  match init_camera camera openResult with
  | (camera1, false, _) => (jsonErr "Camera not available" 503, camera1)
  | (camera1, true, _) =>
    match getConfigRes with
    | Except.ok config =>
      (Resp.json [("iso", JVal.arr config.iso.choices),
        ("shutter", JVal.arr config.shutterspeed.choices),
        ("aperture", JVal.arr config.aperture.choices)] 200, camera1)
    | Except.error ex => (jsonErr ex 500, camera1)

/-- src/app.py lines 201-216 (get_exposure): same shape as the options
handler, reading the three current values; again no release on error. -/
def get_exposure (camera : Option Cam) (openResult : Except GpError Cam)
    (getConfigRes : Except GpError GpConfig) : Resp × Option Cam :=
  match init_camera camera openResult with
  | (camera1, false, _) => (jsonErr "Camera not available" 503, camera1)
  | (camera1, true, _) =>
    match getConfigRes with
    | Except.ok config =>
      (Resp.json [("iso", JVal.str config.iso.value),
        ("shutter", JVal.str config.shutterspeed.value),
        ("aperture", JVal.str config.aperture.value)] 200, camera1)
    | Except.error ex => (jsonErr ex 500, camera1)

/-- config.get_child_by_name(name).set_value(v): updates the in-memory widget
value; res is whether python-gphoto2 accepts the value for this widget (it
raises GPhoto2Error otherwise).  Nothing is sent to the camera here — the
config tree is only pushed by camera.set_config. -/
def set_value (w : GpWidget) (v : String) (res : Except GpError Unit) :
    Except GpError GpWidget :=
  match res with
  | Except.ok _ => Except.ok { w with value := v }
  | Except.error e => Except.error e

/-- src/app.py lines 219-261 (set_exposure_params): init_camera; under
camera_lock read the config once, then for each query parameter that is
present and non-empty (python truthiness of request.args.get) stage the value
on the in-memory config via set_value — a set_value failure returns that
field's 400 immediately — and only after every supplied field has staged is
camera.set_config(config) executed (a GPhoto2Error there is a 500 with
str(ex)).  The third result component is the config camera.set_config was
invoked with, or none when that call was never reached: it records what was
pushed to the device.  No path releases the handle. -/
def set_exposure_params (camera : Option Cam) (openResult : Except GpError Cam)
    (iso shutter aperture : Option String)
    (getConfigRes : Except GpError GpConfig)
    (isoSetRes shutterSetRes apertureSetRes : Except GpError Unit)
    (setConfigRes : Except GpError Unit) :
    Resp × Option Cam × Option GpConfig :=
  match init_camera camera openResult with
  | (camera1, false, _) => (jsonErr "Camera not available" 503, camera1, none)
  | (camera1, true, _) =>
    match getConfigRes with
    | Except.error ex => (jsonErr ex 500, camera1, none)
    | Except.ok config0 =>
      let stepIso : Except Resp GpConfig :=
        match iso with
        | none => Except.ok config0
        | some s =>
          if s.isEmpty then Except.ok config0
          else
            match set_value config0.iso s isoSetRes with
            | Except.ok w => Except.ok { config0 with iso := w }
            | Except.error _ =>
              Except.error (jsonErr ("Invalid ISO value: " ++ s) 400)
      match stepIso with
      | Except.error r => (r, camera1, none)
      | Except.ok config1 =>
        let stepShutter : Except Resp GpConfig :=
          match shutter with
          | none => Except.ok config1
          | some s =>
            if s.isEmpty then Except.ok config1
            else
              match set_value config1.shutterspeed s shutterSetRes with
              | Except.ok w => Except.ok { config1 with shutterspeed := w }
              | Except.error _ =>
                Except.error (jsonErr ("Invalid Shutter value: " ++ s) 400)
        match stepShutter with
        | Except.error r => (r, camera1, none)
        | Except.ok config2 =>
          let stepAperture : Except Resp GpConfig :=
            match aperture with
            | none => Except.ok config2
            | some s =>
              if s.isEmpty then Except.ok config2
              else
                match set_value config2.aperture s apertureSetRes with
                | Except.ok w => Except.ok { config2 with aperture := w }
                | Except.error _ =>
                  Except.error (jsonErr ("Invalid Aperture value: " ++ s) 400)
          match stepAperture with
          | Except.error r => (r, camera1, none)
          | Except.ok config3 =>
            match setConfigRes with
            | Except.ok _ =>
              (Resp.json [("status", JVal.str "ok")] 200, camera1,
                some config3)
            | Except.error ex => (jsonErr ex 500, camera1, some config3)

/-- Target liveview and encoder rate, src/app.py line 28 (fps = 30; the
encoder stream is created with rate=fps). -/
def fps : Nat := 30

/-- src/app.py line 290: rate at which the source image changes in the
video. -/
def fps_input : Nat := 3

/-- src/app.py line 291: frame rate of the final video. -/
def fps_output : Nat := 30

/-- src/app.py line 292: total video duration in seconds. -/
def total_duration : Nat := 15

/-- src/app.py line 294: the number of source-image selections made by the
encoding loop (not the number of encoded frames: each selection is encoded
fps_output / fps_input times by the inner loop). -/
def total_frames : Nat := total_duration * fps_input

/-- Source-image index used by each iteration of the encoding loop,
src/app.py line 313: image_paths[i % len(image_paths)]. -/
def videoSelected (n : Nat) : List Nat :=
  (List.range total_frames).map (fun i => i % n)

/-- The sequence of source-image indices of the frames pushed to the encoder
by the loop at src/app.py lines 312-321: for each of the total_frames
selections, the selected image is encoded fps_output / fps_input times in a
row (line 319). -/
def videoEncodedFrames (n : Nat) : List Nat :=
  (List.range total_frames).flatMap (fun i =>
    List.replicate (fps_output / fps_input) (i % n))

/-- Observable side effects of the /video handler, in source order: temp
directory creation (tempfile.mkdtemp), saving each upload, configuring the
encoder stream with the chosen resolution, and each frame pushed to the
encoder tagged with its source-image index. -/
inductive VideoEffect where
  | mkTempDir
  | saveFile (i : Nat)
  | configureStream (width height : Nat)
  | encodeFrame (imgIdx : Nat)
deriving DecidableEq, Repr

/-- Source-image index of an encodeFrame effect, none for the others. -/
def encodedIdx : VideoEffect → Option Nat
  | VideoEffect.encodeFrame i => some i
  | _ => none

/-- src/app.py lines 264-329 (video): with no uploads the 400 "No images
uploaded" is returned before any temp dir, file save or encoder work; with
uploads, the orientation picks the output resolution (landscape 1080x720,
anything else 720x1080), the files are saved into a fresh temp dir and the
loop encodes videoEncodedFrames; the response sends video.mp4 as an
attachment. -/
def video (files : List String) (orientation : Option String) :
    Resp × List VideoEffect :=
  if files.isEmpty then (jsonErr "No images uploaded" 400, [])
  else
    let wh : Nat × Nat :=
      if orientation = some "landscape" then (1080, 720) else (720, 1080)
    (Resp.fileResp "video.mp4" "video/mp4",
      VideoEffect.mkTempDir ::
        ((List.range files.length).map VideoEffect.saveFile ++
          (VideoEffect.configureStream wh.1 wh.2 ::
            (videoEncodedFrames files.length).map VideoEffect.encodeFrame)))

/-- Concrete config used by the C4 counterexample and witness. -/
def cfgW : GpConfig :=
  ⟨⟨"auto", ["auto", "100", "200"]⟩, ⟨"1/60", ["1/60", "2"]⟩, ⟨"f4", ["f4"]⟩⟩

/-- Serialization-relevant events a handler execution emits: taking and
giving back camera_lock (the single threading.Lock of src/app.py line 32) and
the begin/end of one device-level operation (init, exit, preview capture,
still capture, file get/save/delete on the camera, config read, config
write). -/
inductive Ev where
  | acquire
  | release
  | devStart
  | devEnd
deriving DecidableEq, Repr

/-- The sequence of serialization-relevant events of one handler execution. -/
abbrev Prog := List Ev

/-- k device operations back to back, each a start/end pair. -/
def devOps : Nat → Prog
  | 0 => []
  | k + 1 => Ev.devStart :: Ev.devEnd :: devOps k

/-- One `with camera_lock:` block containing k device operations: every
device call in src/app.py sits inside such a block. -/
def lockedSection (k : Nat) : Prog :=
  Ev.acquire :: (devOps k ++ [Ev.release])

/-- init_camera, lines 36-49: one locked section; it contains the single open
call when the handle was absent (opens = true) and no device call when the
handle was already present. -/
def init_camera_trace : Bool → Prog
  | true => lockedSection 1
  | false => lockedSection 0

/-- release_camera, lines 52-62 (also the body of stop_stream, lines
100-108): one locked section containing the exit call iff a handle was
present. -/
def release_camera_trace : Bool → Prog
  | true => lockedSection 1
  | false => lockedSection 0

/-- capture, lines 129-163: init_camera followed by one locked section with
up to four device calls (capture, file_get, file_save, file_delete; fewer
when one of them raises).  err = none is the success path; err = some wasOpen
is the except path (lines 158-163), which additionally runs release_camera —
a further locked section containing the camera.exit device close iff the
handle was still present (wasOpen). -/
def capture_trace (opens : Bool) (k : Nat) (err : Option Bool) : Prog :=
  match err with
  | none => init_camera_trace opens ++ lockedSection k
  | some wasOpen =>
    init_camera_trace opens ++
      (lockedSection k ++ release_camera_trace wasOpen)

/-- get_exposure / get_exposure_options, lines 166-216: init_camera followed
by one locked section with the get_config call. -/
def exposure_read_trace (opens : Bool) : Prog :=
  init_camera_trace opens ++ lockedSection 1

/-- set_exposure_params, lines 219-261: init_camera followed by one locked
section with get_config and possibly set_config (set_value is in-memory). -/
def set_exposure_trace (opens : Bool) (k : Nat) : Prog :=
  init_camera_trace opens ++ lockedSection k

/-- generate_frames, lines 65-81: one locked section per loop iteration (the
preview capture; 0 device calls in the iteration that finds the handle
absent), the pacing sleep between iterations holds no lock. -/
def generate_frames_trace (ks : List Nat) : Prog :=
  (ks.map lockedSection).flatten

/-- The event traces the handlers of src/app.py can produce, one constructor
per handler family (idle covers request threads doing no device work, e.g.
/video and /). -/
inductive HandlerTrace : Prog → Prop where
  | initCam (opens : Bool) : HandlerTrace (init_camera_trace opens)
  | releaseCam (wasOpen : Bool) : HandlerTrace (release_camera_trace wasOpen)
  | captureT (opens : Bool) (k : Nat) (hk : k ≤ 4) (err : Option Bool) :
      HandlerTrace (capture_trace opens k err)
  | exposureReadT (opens : Bool) : HandlerTrace (exposure_read_trace opens)
  | setExposureT (opens : Bool) (k : Nat) (hk : k ≤ 2) :
      HandlerTrace (set_exposure_trace opens k)
  | genFramesT (ks : List Nat) (hks : ∀ k ∈ ks, k ≤ 1) :
      HandlerTrace (generate_frames_trace ks)
  | idle : HandlerTrace []

/-- Well-bracketed lock discipline of a remaining program: the first index is
whether the thread currently holds camera_lock, the second whether it is
inside a device operation.  Device operations start and end only while the
lock is held, and the lock is never re-acquired while held. -/
inductive WF : Bool → Bool → Prog → Prop where
  | done : WF false false []
  | acq {p : Prog} : WF true false p → WF false false (Ev.acquire :: p)
  | rel {p : Prog} : WF false false p → WF true false (Ev.release :: p)
  | dstart {p : Prog} : WF true true p → WF true false (Ev.devStart :: p)
  | dend {p : Prog} : WF true false p → WF true true (Ev.devEnd :: p)

/-- Per-thread state: remaining program and whether the thread is currently
inside a device operation. -/
structure ThreadSt where
  prog : Prog
  inDev : Bool
deriving DecidableEq, Repr

/-- Global state of the interleaving semantics: the owner of camera_lock
(none when free) and every thread's state. -/
structure CState where
  owner : Option Nat
  threads : Nat → ThreadSt

/-- All threads at the start of their handler, the lock free. -/
def initState (progs : Nat → Prog) : CState :=
  ⟨none, fun i => ⟨progs i, false⟩⟩

/-- Interleaving small-step semantics over the thread programs.  Only the
lock is constrained (acquire requires it free, as threading.Lock guarantees);
the semantics itself does NOT stop two threads from being inside a device
operation at once — that must come from the programs' lock discipline. -/
inductive CStep : CState → CState → Prop where
  | acq {s : CState} (i : Nat) (p : Prog) (hown : s.owner = none)
      (hprog : (s.threads i).prog = Ev.acquire :: p) :
      CStep s ⟨some i, Function.update s.threads i ⟨p, (s.threads i).inDev⟩⟩
  | rel {s : CState} (i : Nat) (p : Prog)
      (hprog : (s.threads i).prog = Ev.release :: p) :
      CStep s ⟨none, Function.update s.threads i ⟨p, (s.threads i).inDev⟩⟩
  | dstart {s : CState} (i : Nat) (p : Prog)
      (hprog : (s.threads i).prog = Ev.devStart :: p) :
      CStep s ⟨s.owner, Function.update s.threads i ⟨p, true⟩⟩
  | dend {s : CState} (i : Nat) (p : Prog)
      (hprog : (s.threads i).prog = Ev.devEnd :: p) :
      CStep s ⟨s.owner, Function.update s.threads i ⟨p, false⟩⟩

/-- The inductive invariant: each thread's remaining program is well
bracketed for that thread's actual lock-holding and in-device status. -/
def Inv (s : CState) : Prop :=
  ∀ i, (s.owner = some i →
          WF true (s.threads i).inDev (s.threads i).prog) ∧
       (s.owner ≠ some i →
          WF false (s.threads i).inDev (s.threads i).prog)

/-- Concrete scenario for the C3 witness: every thread runs a full successful
/capture. -/
def c3progs : Nat → Prog := fun _ => capture_trace true 4 none

/-- Initial state of the witness scenario. -/
def c3s0 : CState := initState c3progs

/-- Thread 0's program after its acquire step. -/
def c3rest1 : Prog := (devOps 1 ++ [Ev.release]) ++ lockedSection 4

/-- Witness state after thread 0 acquires camera_lock. -/
def c3s1 : CState :=
  ⟨some 0, Function.update c3s0.threads 0 ⟨c3rest1, (c3s0.threads 0).inDev⟩⟩

/-- Thread 0's program after entering its first device operation. -/
def c3rest2 : Prog := Ev.devEnd :: Ev.release :: lockedSection 4

/-- Witness state with thread 0 inside a device operation. -/
def c3s2 : CState :=
  ⟨c3s1.owner, Function.update c3s1.threads 0 ⟨c3rest2, true⟩⟩

/-- Claim C6: init_camera returns success without re-opening when the handle
is already open (no device call is made, whatever the open oracle says); a
failed open leaves the handle None and returns failure; a subsequent call
retries the open rather than caching the failure, and succeeds when the
underlying open now succeeds. -/
theorem C6_init_camera_behavior (c c2 : Cam) (e : GpError)
    (r : Except GpError Cam) :
    init_camera (some c) r = (some c, true, []) ∧
    init_camera none (Except.error e) = (none, false, [DevCall.init]) ∧
    init_camera (init_camera none (Except.error e)).1 (Except.ok c2)
      = (some c2, true, [DevCall.init]) :=
  ⟨rfl, rfl, rfl⟩

/-- Claim C7: release_camera is idempotent: after any call the handle is None;
a second call (that is, any call on an already-released session) performs no
device call, and the function never reports an error — close failures are
swallowed, so the result does not depend on the exit outcome at all. -/
theorem C7_release_idempotent (cam : Option Cam)
    (e1 e2 e3 : Except GpError Unit) :
    (release_camera cam e1).1 = none ∧
    release_camera (release_camera cam e1).1 e2 = (none, []) ∧
    release_camera cam e1 = release_camera cam e3 := by
  cases cam <;> exact ⟨rfl, rfl, rfl⟩

/-- Claim C9: POST /video with an empty upload list returns the 400
"No images uploaded" error and performs no work at all: no temp directory is
created, no file is saved, no encoder is configured, no frame is encoded. -/
theorem C9_video_empty_upload (orientation : Option String) :
    video [] orientation = (jsonErr "No images uploaded" 400, []) := rfl

/-- Claim C10: after /liveview/stop the active flag is false and the handle is
None regardless of the prior state: the stop handler unconditionally clears
the flag and releases the handle, even when no stream was ever started and
even when the handle was opened by an unrelated operation. -/
theorem C10_stop_stream_unconditional (a : Bool) (cam : Option Cam)
    (er : Except GpError Unit) :
    (stop_stream a cam er).2.1 = false ∧ (stop_stream a cam er).2.2 = none ∧
    (stop_stream a cam er).1
      = Resp.json [("status", JVal.str "Stream stopped")] 200 := by
  cases cam <;> exact ⟨rfl, rfl, rfl⟩

/-- Claim C1 counterexample: with the handle already open, a GPhoto2Error
inside GET /exposure returns the 500 error response while the handle is still
open (some ()), not closed and set to None as the claim requires. -/
theorem C1_counterexample :
    (get_exposure (some ()) (Except.ok ()) (Except.error "io error")).2
      = some () ∧
    (get_exposure (some ()) (Except.ok ()) (Except.error "io error")).1
      = jsonErr "io error" 500 :=
  ⟨rfl, rfl⟩

/-- Claim C1 amended: only the still-capture handler releases the handle when
a GPhoto2Error occurs after a successful open (whichever of its four device
calls fails); the preview-frame loop, the exposure read, the exposure-options
read and the exposure write all surface the error with the handle left
open. -/
theorem C1_amended_release_behavior (c : Cam) (e : GpError)
    (fp : CamFilePath) (d : String) (fg : Except GpError String)
    (sv dl xr : Except GpError Unit)
    (i s a : Option String) (r1 r2 r3 r4 : Except GpError Unit)
    (cfg : GpConfig) :
    (capture (some c) (Except.ok c) (Except.error e) fg sv dl xr).2 = none ∧
    (capture (some c) (Except.ok c) (Except.ok fp) (Except.error e) sv dl
      xr).2 = none ∧
    (capture (some c) (Except.ok c) (Except.ok fp) (Except.ok d)
      (Except.error e) dl xr).2 = none ∧
    (capture (some c) (Except.ok c) (Except.ok fp) (Except.ok d)
      (Except.ok ()) (Except.error e) xr).2 = none ∧
    (get_exposure (some c) (Except.ok c) (Except.error e)).2 = some c ∧
    (get_exposure_options (some c) (Except.ok c) (Except.error e)).2
      = some c ∧
    (set_exposure_params (some c) (Except.ok c) i s a (Except.error e)
      r1 r2 r3 r4).2.1 = some c ∧
    (set_exposure_params (some c) (Except.ok c) none none none
      (Except.ok cfg) r1 r2 r3 (Except.error e)).2.1 = some c ∧
    (generate_frames true (some c) [Except.error e]).2.2 = some c :=
  ⟨rfl, rfl, rfl, rfl, rfl, rfl, rfl, rfl, rfl⟩

/-- Claim C2 counterexample: a device yielding F1, F2, F3 and then failing
makes the loop emit exactly the three framed chunks and terminate, but the
active flag after the loop is still true, not false: the loop body never
clears stream_active, on a device error it only breaks. -/
theorem C2_counterexample :
    generate_frames true (some ()) [Except.ok "F1", Except.ok "F2",
        Except.ok "F3", Except.error "device error"]
      = ([frameChunk "F1", frameChunk "F2", frameChunk "F3"], true,
          some ()) ∧
    ¬(generate_frames true (some ()) [Except.ok "F1", Except.ok "F2",
        Except.ok "F3", Except.error "device error"]).2.1 = false :=
  ⟨rfl, fun h => Bool.noConfusion h⟩

/-- Claim C2 amended: for a device yielding frames f1, f2, f3 and then
failing, the loop emits exactly the three framed chunks and terminates, but
the active flag keeps its value true and the handle stays open: the stream
only becomes stopped through an explicit /liveview/stop request. -/
theorem C2_amended_stream_sequence (f1 f2 f3 : String) (e : GpError)
    (c : Cam) :
    generate_frames true (some c)
        [Except.ok f1, Except.ok f2, Except.ok f3, Except.error e]
      = ([frameChunk f1, frameChunk f2, frameChunk f3], true, some c) := rfl

/-- Claim C5 counterexample: a GPhoto2Error whose driver text is "PTP General
Error" during /capture produces an HTTP response whose body carries exactly
that raw driver string (str(ex)): raw driver error content does cross into
the HTTP-layer result instead of a fixed taxonomy value. -/
theorem C5_counterexample :
    (capture (some ()) (Except.ok ()) (Except.error "PTP General Error")
        (Except.ok "d") (Except.ok ()) (Except.ok ()) (Except.ok ())).1
      = jsonErr "PTP General Error" 500 := rfl

/-- Claim C5 amended: failing device operations are mapped onto fixed HTTP
statuses with handler-fixed message shapes — a failed open gives 503 with the
fixed body "Camera not available" in the one-shot capture/exposure handlers
but 500 with the fixed body "Camera initialization failed" in
/liveview/start; an invalid exposure field or an empty video upload gives a
400 with a fixed message shape — while a GPhoto2Error after a successful
open gives a 500 whose body embeds the raw driver error string verbatim, so
raw driver text does reach the HTTP layer. -/
theorem C5_amended_error_mapping (c : Cam) (e : GpError) (a : Bool)
    (fg : Except GpError String) (sv dl xr : Except GpError Unit)
    (r1 r2 r3 r4 : Except GpError Unit) (o : Option String) :
    (capture none (Except.error e) (Except.ok ⟨"f", "n"⟩) fg sv dl xr).1
      = jsonErr "Camera not available" 503 ∧
    (get_exposure none (Except.error e) (Except.ok cfgW)).1
      = jsonErr "Camera not available" 503 ∧
    (start_stream a none (Except.error e)).1
      = jsonErr "Camera initialization failed" 500 ∧
    (capture (some c) (Except.ok c) (Except.error e) fg sv dl xr).1
      = jsonErr e 500 ∧
    (get_exposure (some c) (Except.ok c) (Except.error e)).1
      = jsonErr e 500 ∧
    (get_exposure_options (some c) (Except.ok c) (Except.error e)).1
      = jsonErr e 500 ∧
    (set_exposure_params (some c) (Except.ok c) none none none
      (Except.error e) r1 r2 r3 r4).1 = jsonErr e 500 ∧
    (video [] o).1 = jsonErr "No images uploaded" 400 :=
  ⟨rfl, rfl, rfl, rfl, rfl, rfl, rfl, rfl⟩

/-- Claim C4 counterexample: POST /exposure with a valid iso ("100") and an
invalid shutter returns the shutter's 400 while the device write never
happened (the set_config component is none): the earlier valid field has NOT
been applied to the device when the 400 is returned. -/
theorem C4_counterexample :
    set_exposure_params (some ()) (Except.ok ()) (some "100") (some "2") none
        (Except.ok cfgW) (Except.ok ()) (Except.error "bad value")
        (Except.ok ()) (Except.ok ())
      = (jsonErr ("Invalid Shutter value: " ++ "2") 400, some (), none) :=
  rfl

/-- Claim C4 amended: exposure fields are validated and staged one at a time
on the in-memory config (with no rollback of the staging), but the single
device write camera.set_config runs only after every supplied field has
staged successfully: when a later field is invalid, the 400 for that field is
returned before set_config, so no field of the request — the earlier valid
ones included — has been applied to the device; when all supplied fields are
valid, one set_config pushes them all at once. -/
theorem C4_amended_staged_update (c : Cam) (cfg : GpConfig)
    (isoV shutV : String) (e : GpError) (r3 r4 : Except GpError Unit)
    (h1 : isoV.isEmpty = false) (h2 : shutV.isEmpty = false) :
    set_exposure_params (some c) (Except.ok c) (some isoV) (some shutV) none
        (Except.ok cfg) (Except.ok ()) (Except.error e) r3 r4
      = (jsonErr ("Invalid Shutter value: " ++ shutV) 400, some c, none) ∧
    set_exposure_params (some c) (Except.ok c) (some isoV) (some shutV) none
        (Except.ok cfg) (Except.ok ()) (Except.ok ()) r3 (Except.ok ())
      = (Resp.json [("status", JVal.str "ok")] 200, some c,
          some { cfg with iso := { cfg.iso with value := isoV },
                          shutterspeed :=
                            { cfg.shutterspeed with value := shutV } }) := by
  constructor <;>
    simp [set_exposure_params, init_camera, set_value, h1, h2]

/-- Claim C4 witness: the amended theorem applied at iso "100", shutter "2"
with the concrete config cfgW. -/
theorem C4_amended_staged_update_witness :
    "100".isEmpty = false ∧ "2".isEmpty = false ∧
    set_exposure_params (some ()) (Except.ok ()) (some "100") (some "2") none
        (Except.ok cfgW) (Except.ok ()) (Except.ok ()) (Except.ok ())
        (Except.ok ())
      = (Resp.json [("status", JVal.str "ok")] 200, some (),
          some { cfgW with iso := { cfgW.iso with value := "100" },
                           shutterspeed :=
                             { cfgW.shutterspeed with value := "2" } }) :=
  ⟨rfl, rfl,
    (C4_amended_staged_update () cfgW "100" "2" "unused" (Except.ok ())
        (Except.ok ()) rfl rfl).2⟩

/-- Claim C8: for every non-empty upload list, the /video loop encodes
total_duration * fps_output = 450 frames in all; the encoded sequence is the
selection sequence with each selected source image repeated
fps_output / fps_input = 10 consecutive times; the selection sequence cycles
through the N uploads in upload order (index i % N at step i); and these
frames are exactly the encodeFrame effects of the handler. -/
theorem C8_video_frame_counts (files : List String) (o : Option String)
    (h : files ≠ []) :
    (videoEncodedFrames files.length).length = 450 ∧
    total_duration * fps_output = 450 ∧
    fps_output / fps_input = 10 ∧
    videoEncodedFrames files.length
      = (videoSelected files.length).flatMap (fun j => List.replicate 10 j) ∧
    (∀ i, i < total_frames →
      (videoSelected files.length)[i]? = some (i % files.length)) ∧
    (video files o).2.filterMap encodedIdx = videoEncodedFrames files.length
    := by
  have hne : files.isEmpty = false := by simp [List.isEmpty_iff, h]
  refine ⟨?_, rfl, rfl, ?_, ?_, ?_⟩
  · rw [videoEncodedFrames, List.length_flatMap]
    simp [Function.comp_def, total_frames, total_duration, fps_input,
      fps_output]
  · simp [videoEncodedFrames, videoSelected, List.flatMap_map, fps_output,
      fps_input]
  · intro i hi
    simp [videoSelected, List.getElem?_map, List.getElem?_range, hi]
  · rw [video]
    simp only [hne, Bool.false_eq_true, if_false, List.filterMap_cons,
      List.filterMap_append, List.filterMap_map, encodedIdx,
      Function.comp_def]
    simp [List.filterMap_some]

/-- Claim C8 witness: the theorem applied to the one-image upload list. -/
theorem C8_video_frame_counts_witness :
    (["img0"] : List String) ≠ [] ∧
    (videoEncodedFrames (["img0"] : List String).length).length = 450 :=
  ⟨by simp, (C8_video_frame_counts ["img0"] none (by simp)).1⟩

theorem WF_acquire_inv {h d : Bool} {p : Prog}
    (w : WF h d (Ev.acquire :: p)) :
    h = false ∧ d = false ∧ WF true false p := by
  cases w with
  | acq hw => exact ⟨rfl, rfl, hw⟩

theorem WF_release_inv {h d : Bool} {p : Prog}
    (w : WF h d (Ev.release :: p)) :
    h = true ∧ d = false ∧ WF false false p := by
  cases w with
  | rel hw => exact ⟨rfl, rfl, hw⟩

theorem WF_dstart_inv {h d : Bool} {p : Prog}
    (w : WF h d (Ev.devStart :: p)) :
    h = true ∧ d = false ∧ WF true true p := by
  cases w with
  | dstart hw => exact ⟨rfl, rfl, hw⟩

theorem WF_dend_inv {h d : Bool} {p : Prog}
    (w : WF h d (Ev.devEnd :: p)) :
    h = true ∧ d = true ∧ WF true false p := by
  cases w with
  | dend hw => exact ⟨rfl, rfl, hw⟩

/-- A thread inside a device operation holds the lock. -/
theorem WF_inDev_holding {h : Bool} {p : Prog} (w : WF h true p) :
    h = true := by
  cases w with
  | dend _ => rfl

theorem wf_devOps (k : Nat) {p : Prog} (h : WF false false p) :
    WF true false (devOps k ++ Ev.release :: p) := by
  induction k with
  | zero => exact WF.rel h
  | succ n ih => exact WF.dstart (WF.dend ih)

theorem wf_lockedSection (k : Nat) {p : Prog} (h : WF false false p) :
    WF false false (lockedSection k ++ p) := by
  have h2 := wf_devOps k h
  rw [lockedSection, List.cons_append, List.append_assoc]
  exact WF.acq h2

theorem wf_lockedSection_nil (k : Nat) : WF false false (lockedSection k) := by
  have h := wf_lockedSection k (p := []) WF.done
  simpa using h

/-- Every handler trace is lock disciplined. -/
theorem wf_handler {p : Prog} (hp : HandlerTrace p) : WF false false p := by
  cases hp with
  | initCam opens => cases opens <;> exact wf_lockedSection_nil _
  | releaseCam wasOpen => cases wasOpen <;> exact wf_lockedSection_nil _
  | captureT opens k _ err =>
    cases err with
    | none => cases opens <;> exact wf_lockedSection _ (wf_lockedSection_nil _)
    | some wasOpen =>
      cases opens <;> cases wasOpen <;>
        exact wf_lockedSection _ (wf_lockedSection _ (wf_lockedSection_nil _))
  | exposureReadT opens =>
    cases opens <;> exact wf_lockedSection _ (wf_lockedSection_nil _)
  | setExposureT opens k _ =>
    cases opens <;> exact wf_lockedSection _ (wf_lockedSection_nil _)
  | genFramesT ks hks =>
    clear hks
    induction ks with
    | nil => exact WF.done
    | cons k t ih => exact wf_lockedSection k ih
  | idle => exact WF.done

theorem Inv_init (progs : Nat → Prog) (hp : ∀ i, HandlerTrace (progs i)) :
    Inv (initState progs) := by
  intro i
  constructor
  · intro hcontra
    exact Option.noConfusion hcontra
  · intro _
    exact wf_handler (hp i)

/-- One interleaving step preserves the invariant. -/
theorem Inv_step {s s2 : CState} (hinv : Inv s) (hst : CStep s s2) :
    Inv s2 := by
  cases hst with
  | acq i p hown hprog =>
    have hwi : WF false (s.threads i).inDev (s.threads i).prog :=
      (hinv i).2 (by simp [hown])
    rw [hprog] at hwi
    obtain ⟨-, hd, hw⟩ := WF_acquire_inv hwi
    intro j
    constructor
    · intro hoj
      have hij : i = j := by simpa using hoj
      subst hij
      simpa [Function.update_same, hd] using hw
    · intro hoj
      have hji : j ≠ i := fun hji => hoj (by rw [hji])
      simp only [Function.update_noteq hji]
      exact (hinv j).2 (by simp [hown])
  | rel i p hprog =>
    have hown : s.owner = some i := by
      by_cases ho : s.owner = some i
      · exact ho
      · have hwi := (hinv i).2 ho
        rw [hprog] at hwi
        exact absurd (WF_release_inv hwi).1 (by simp)
    have hwi := (hinv i).1 hown
    rw [hprog] at hwi
    obtain ⟨-, hd, hw⟩ := WF_release_inv hwi
    intro j
    constructor
    · intro hoj
      exact absurd hoj (by simp)
    · intro _
      by_cases hji : j = i
      · subst hji
        simpa [Function.update_same, hd] using hw
      · simp only [Function.update_noteq hji]
        refine (hinv j).2 ?_
        rw [hown]
        exact fun hc => hji (by simpa using hc.symm)
  | dstart i p hprog =>
    have hown : s.owner = some i := by
      by_cases ho : s.owner = some i
      · exact ho
      · have hwi := (hinv i).2 ho
        rw [hprog] at hwi
        exact absurd (WF_dstart_inv hwi).1 (by simp)
    have hwi := (hinv i).1 hown
    rw [hprog] at hwi
    obtain ⟨-, -, hw⟩ := WF_dstart_inv hwi
    intro j
    constructor
    · intro hoj
      by_cases hji : j = i
      · subst hji
        simpa [Function.update_same] using hw
      · simp only [Function.update_noteq hji]
        exact (hinv j).1 hoj
    · intro hoj
      by_cases hji : j = i
      · subst hji
        exact absurd hown hoj
      · simp only [Function.update_noteq hji]
        exact (hinv j).2 hoj
  | dend i p hprog =>
    have hown : s.owner = some i := by
      by_cases ho : s.owner = some i
      · exact ho
      · have hwi := (hinv i).2 ho
        rw [hprog] at hwi
        exact absurd (WF_dend_inv hwi).1 (by simp)
    have hwi := (hinv i).1 hown
    rw [hprog] at hwi
    obtain ⟨-, -, hw⟩ := WF_dend_inv hwi
    intro j
    constructor
    · intro hoj
      by_cases hji : j = i
      · subst hji
        simpa [Function.update_same] using hw
      · simp only [Function.update_noteq hji]
        exact (hinv j).1 hoj
    · intro hoj
      by_cases hji : j = i
      · subst hji
        exact absurd hown hoj
      · simp only [Function.update_noteq hji]
        exact (hinv j).2 hoj

theorem Inv_reach {s0 s : CState} (h0 : Inv s0)
    (hs : Relation.ReflTransGen CStep s0 s) : Inv s := by
  induction hs with
  | refl => exact h0
  | tail _ hstep ih => exact Inv_step ih hstep

/-- Claim C3: in every state reachable by interleaving any set of request
threads, each running one of the handler traces of src/app.py, no two
threads are inside a device-level operation at the same time: every device
access sits inside a camera_lock section, so the single mutex serializes all
device operations. -/
theorem C3_device_mutual_exclusion (progs : Nat → Prog)
    (hp : ∀ i, HandlerTrace (progs i)) (s : CState)
    (hs : Relation.ReflTransGen CStep (initState progs) s)
    (i j : Nat) (hi : (s.threads i).inDev = true)
    (hj : (s.threads j).inDev = true) : i = j := by
  have hinv : Inv s := Inv_reach (Inv_init progs hp) hs
  have hoi : s.owner = some i := by
    by_cases ho : s.owner = some i
    · exact ho
    · have hwi := (hinv i).2 ho
      rw [hi] at hwi
      exact absurd (WF_inDev_holding hwi) (by simp)
  have hoj : s.owner = some j := by
    by_cases ho : s.owner = some j
    · exact ho
    · have hwj := (hinv j).2 ho
      rw [hj] at hwj
      exact absurd (WF_inDev_holding hwj) (by simp)
  exact Option.some.inj (hoi.symm.trans hoj)

theorem c3_step1 : CStep c3s0 c3s1 :=
  CStep.acq 0 c3rest1 rfl rfl

theorem c3_step2 : CStep c3s1 c3s2 :=
  CStep.dstart 0 c3rest2 rfl

theorem c3_reach : Relation.ReflTransGen CStep c3s0 c3s2 :=
  Relation.ReflTransGen.tail
    (Relation.ReflTransGen.tail Relation.ReflTransGen.refl c3_step1) c3_step2

/-- Claim C3 witness: all threads run a full /capture trace; c3s2 is the
concrete reachable state in which thread 0 has taken the lock and entered a
device operation, and the theorem instantiated there at i = j = 0 has all
its hypotheses discharged. -/
theorem C3_device_mutual_exclusion_witness :
    (c3s2.threads 0).inDev = true ∧ 0 = 0 :=
  ⟨rfl,
    C3_device_mutual_exclusion c3progs
      (fun _ => HandlerTrace.captureT true 4 (by decide) none) c3s2 c3_reach
      0 0 rfl rfl⟩

end CameraService
